import Mathlib

/-!
Verification development for the LMS submission-evaluation pipeline.

The definitions below are a shallow embedding of the code in
`src/server/services/judge0.ts` (Execution Client and Test Case Evaluator),
`src/server/routes.ts` (Submission Orchestrator, achievement re-evaluation,
task fetch route), `src/unnamed/part_002` (`DatabaseStorage`: progress,
XP, achievement and certificate storage operations over MongoDB) and
`src/unnamed/part_004` (`CertificateService`).  Network calls to the remote
execution service are modelled by an oracle (`poll` streams for the polling
loop, a per-case `exec` outcome for the evaluator); the MongoDB collections
are modelled as lists inside a `Store` record, with `_id`-keyed updates
mapping over the matching rows.
-/

namespace LMS

/-- Result status returned by the execution service
(`Judge0Result.status` in `judge0.ts`). -/
structure Judge0Status where
  id : Nat
  description : String
deriving DecidableEq

/-- Terminal (or queued/processing) result of one execution-service poll
(`Judge0Result` in `judge0.ts`; only fields the evaluator reads). -/
structure Judge0Result where
  status : Judge0Status
  stdout : Option String := none
  time : Option String := none
  memory : Option Nat := none
deriving DecidableEq

/-- The polling loop inside `Judge0Service.executeCode`: the `poll` stream gives
the result of the `attempt`-th call to `getSubmissionResult`; status ids 1
(In Queue) and 2 (Processing) are non-terminal, any other id is returned
immediately; when the fuel (attempt budget) is exhausted the loop throws
`Submission timed out`. -/
def pollLoop (poll : Nat → Judge0Result) : Nat → Nat → Except String Judge0Result
  | 0, _ => Except.error "Submission timed out"
  | Nat.succ fuel, attempt =>
      let r := poll attempt
      if r.status.id != 1 && r.status.id != 2 then Except.ok r
      else pollLoop poll fuel (attempt + 1)

/-- `Judge0Service.executeCode`: poll up to `maxAttempts = 30` times starting at
attempt 0. -/
def executeCode (poll : Nat → Judge0Result) : Except String Judge0Result :=
  pollLoop poll 30 0

/-- Characters stripped at both ends (helper for `jsTrim`). -/
def trimChars (l : List Char) : List Char :=
  ((l.dropWhile Char.isWhitespace).reverse.dropWhile Char.isWhitespace).reverse

/-- JavaScript `String.prototype.trim`: strip leading and trailing whitespace;
interior whitespace is preserved. -/
def jsTrim (s : String) : String := String.mk (trimChars s.data)

/-- JavaScript `String.prototype.toLowerCase` (on the ASCII names involved):
lowercase every character. -/
def jsToLower (s : String) : String := String.mk (s.data.map Char.toLower)

/-- One test case as passed to `executeWithTestCases`
(`{ input, expectedOutput }`). -/
structure TestCaseInput where
  input : String
  expectedOutput : String
deriving DecidableEq

/-- One per-case entry of the `results` array built by `executeWithTestCases`. -/
structure CaseResult where
  input : String
  expectedOutput : String
  actualOutput : String
  passed : Bool
  status : String
  time : Option String := none
  memory : Option Nat := none
deriving DecidableEq

/-- Aggregate result of `executeWithTestCases`. -/
structure EvalResult where
  results : List CaseResult
  totalPassed : Nat
  totalTests : Nat
deriving DecidableEq

/-- The body of the per-test-case loop of `executeWithTestCases`: on a
successful run the case passes iff the trimmed stdout equals the trimmed
expected output AND the status id is 3 (Accepted); on a thrown error the case
is recorded failed with a synthetic `Error: ...` status and empty output. -/
def evalCase (tc : TestCaseInput) (run : Except String Judge0Result) : CaseResult :=
  match run with
  | Except.ok r =>
      let actualOutput := jsTrim (r.stdout.getD "")
      let expectedOutput := jsTrim tc.expectedOutput
      let passed := actualOutput == expectedOutput && r.status.id == 3
      { input := tc.input
        expectedOutput := expectedOutput
        actualOutput := actualOutput
        passed := passed
        status := r.status.description
        time := r.time
        memory := r.memory }
  | Except.error e =>
      { input := tc.input
        expectedOutput := tc.expectedOutput
        actualOutput := ""
        passed := false
        status := "Error: " ++ e
        time := none
        memory := none }

/-- `Judge0Service.executeWithTestCases`: run each case in input order through
the Execution Client (modelled by the per-case `exec` oracle), collect one
result per case, count the passed ones, and report `totalTests` as the number
of input cases. -/
def executeWithTestCases (exec : TestCaseInput → Except String Judge0Result) :
    List TestCaseInput → EvalResult
  | [] => { results := [], totalPassed := 0, totalTests := 0 }
  | tc :: rest =>
      let r := evalCase tc (exec tc)
      let tail := executeWithTestCases exec rest
      { results := r :: tail.results
        totalPassed := (if r.passed then 1 else 0) + tail.totalPassed
        totalTests := tail.totalTests + 1 }

/-- A user row (`User` collection; only fields the pipeline touches). -/
structure UserRow where
  id : String
  xp : Nat
deriving DecidableEq

/-- A course row (`Course` collection). -/
structure CourseRow where
  id : String
  level : String
  xpReward : Nat
  isActive : Bool
deriving DecidableEq

/-- A module row (`Module` collection). -/
structure ModuleRow where
  id : String
  courseId : String
  order : Nat
  isActive : Bool
deriving DecidableEq

/-- A task row (`Task` collection; schema defaults give every stored task a
numeric `xpReward`, defaulting to 0). -/
structure TaskRow where
  id : String
  moduleId : String
  xpReward : Nat
  order : Nat
  isActive : Bool
deriving DecidableEq

/-- A test-case row (`TestCase` collection). -/
structure TestCaseRow where
  taskId : String
  input : Option String
  expectedOutput : Option String
  isHidden : Bool
  order : Nat
deriving DecidableEq

/-- A user-progress row (`UserProgress` collection); `moduleId`/`taskId` are
nullable, `none` standing for a `null` field. -/
structure ProgressRow where
  userId : String
  courseId : String
  moduleId : Option String
  taskId : Option String
  isCompleted : Bool
deriving DecidableEq

/-- A submission row (`Submission` collection); `id` models the Mongo `_id`,
assigned by `createSubmission` as the current collection size. -/
structure SubmissionRow where
  id : Nat
  userId : String
  taskId : String
  code : String
  status : Option String
  testCasesPassed : Nat
  totalTestCases : Nat
deriving DecidableEq

/-- An achievement row (`Achievement` collection). -/
structure AchievementRow where
  id : String
  name : String
  xpReward : Nat
  isActive : Bool
deriving DecidableEq

/-- A user-achievement (unlock) row (`UserAchievement` collection). -/
structure UserAchievementRow where
  userId : String
  achievementId : String
deriving DecidableEq

/-- A certificate row (`Certificate` collection). -/
structure CertificateRow where
  userId : String
  courseId : String
  certificateNumber : String
deriving DecidableEq

/-- The persistent store: every MongoDB collection the pipeline touches,
as a list of rows. -/
structure Store where
  users : List UserRow
  courses : List CourseRow
  modules : List ModuleRow
  tasks : List TaskRow
  testCaseRows : List TestCaseRow
  progress : List ProgressRow
  submissions : List SubmissionRow
  achievements : List AchievementRow
  userAchievements : List UserAchievementRow
  certificates : List CertificateRow
deriving DecidableEq

/-- JavaScript `x || d` on the numeric fields the pipeline defaults
(`task.xpReward || 50`, `course.xpReward || 500`): 0 is falsy. -/
def jsOr (x d : Nat) : Nat := if x == 0 then d else x

/-- Prefix test on character lists (helper for `strContains`). -/
def listPrefix : List Char → List Char → Bool
  | [], _ => true
  | _ :: _, [] => false
  | a :: as, b :: bs => a == b && listPrefix as bs

/-- Substring search on character lists (helper for `strContains`). -/
def strContainsAux (pat : List Char) : List Char → Bool
  | [] => pat.isEmpty
  | c :: cs => listPrefix pat (c :: cs) || strContainsAux pat cs

/-- JavaScript `String.prototype.includes`: substring containment (an empty
pattern is contained in every string). -/
def strContains (s pat : String) : Bool := strContainsAux pat.data s.data

/-- Hex-digit test used by the Mongo ObjectId regex of the zod schemas. -/
def isHexDigit (c : Char) : Bool :=
  ('0' ≤ c && c ≤ '9') || ('a' ≤ c && c ≤ 'f') || ('A' ≤ c && c ≤ 'F')

/-- The zod ObjectId check of `shared/schema.ts`
(regex `24 hex characters`). -/
def isValidObjectId (s : String) : Bool :=
  s.length == 24 && s.data.all isHexDigit

/-- Stable ascending insertion by an integer key, used to model Mongo
`.sort(dotOrder: 1)` on the small collections. -/
def insertByOrder {α : Type} (key : α → Nat) (x : α) : List α → List α
  | [] => [x]
  | y :: ys => if key x ≤ key y then x :: y :: ys else y :: insertByOrder key x ys

/-- Stable sort by an integer key (`.sort(dotOrder: 1)`). -/
def sortByOrder {α : Type} (key : α → Nat) (l : List α) : List α :=
  l.foldr (insertByOrder key) []

/-- `DatabaseStorage.getTask`: `Task.findById`. -/
def getTask (s : Store) (id : String) : Option TaskRow :=
  s.tasks.find? (fun t => t.id == id)

/-- `DatabaseStorage.getUser` (password projection irrelevant here). -/
def getUser (s : Store) (id : String) : Option UserRow :=
  s.users.find? (fun u => u.id == id)

/-- `DatabaseStorage.getCourse`: `Course.findById`. -/
def getCourse (s : Store) (id : String) : Option CourseRow :=
  s.courses.find? (fun c => c.id == id)

/-- `DatabaseStorage.getTasksByModule`: active tasks of the module, sorted by
`order` ascending. -/
def getTasksByModule (s : Store) (moduleId : String) : List TaskRow :=
  sortByOrder (fun t => t.order)
    (s.tasks.filter (fun t => t.moduleId == moduleId && t.isActive))

/-- `DatabaseStorage.getModulesByCourse`: active modules of the course, sorted
by `order` ascending. -/
def getModulesByCourse (s : Store) (courseId : String) : List ModuleRow :=
  sortByOrder (fun m => m.order)
    (s.modules.filter (fun m => m.courseId == courseId && m.isActive))

/-- `DatabaseStorage.getTestCasesByTask`: every test case of the task (hidden
ones included), sorted by `order` ascending. -/
def getTestCasesByTask (s : Store) (taskId : String) : List TestCaseRow :=
  sortByOrder (fun tc => tc.order)
    (s.testCaseRows.filter (fun tc => tc.taskId == taskId))

/-- `DatabaseStorage.getUserProgress`: every progress row of the user. -/
def getUserProgress (s : Store) (userId : String) : List ProgressRow :=
  s.progress.filter (fun p => p.userId == userId)

/-- `DatabaseStorage.getUserCourseProgress`: progress rows of the user filtered
by `courseId`. -/
def getUserCourseProgress (s : Store) (userId courseId : String) : List ProgressRow :=
  s.progress.filter (fun p => p.userId == userId && p.courseId == courseId)

/-- `DatabaseStorage.updateUserXP`: `$inc` of the `xp` field of the user with
the given `_id` (no-op when no user matches). -/
def updateUserXP (s : Store) (userId : String) (amount : Nat) : Store :=
  { s with users :=
      s.users.map (fun u =>
        if u.id == userId then { u with xp := u.xp + amount } else u) }

/-- Current XP of a user (0 when absent), the observable the XP theorems use. -/
def userXp (s : Store) (userId : String) : Nat :=
  ((s.users.find? (fun u => u.id == userId)).map (fun u => u.xp)).getD 0

/-- Key match of the `findOneAndUpdate` filter in
`DatabaseStorage.updateProgress`: full (user, course, module-or-null,
task-or-null) tuple. -/
def progressKeyMatches (row : ProgressRow) (userId courseId : String)
    (moduleId taskId : Option String) : Bool :=
  row.userId == userId && row.courseId == courseId &&
    row.moduleId == moduleId && row.taskId == taskId

/-- Upsert into a list: replace the first row matching `key` with `newRow`, or
append `newRow` when nothing matches (`findOneAndUpdate` with `upsert`). -/
def upsertFirst {α : Type} (key : α → Bool) (newRow : α) : List α → List α
  | [] => [newRow]
  | x :: xs => if key x then newRow :: xs else x :: upsertFirst key newRow xs

/-- `DatabaseStorage.updateProgress`: upsert a completed progress row keyed by
the full (user, course, module-or-null, task-or-null) tuple. -/
def updateProgress (s : Store) (userId courseId : String)
    (moduleId taskId : Option String) : Store :=
  let newRow : ProgressRow :=
    { userId := userId, courseId := courseId, moduleId := moduleId,
      taskId := taskId, isCompleted := true }
  let key : ProgressRow → Bool :=
    fun r => progressKeyMatches r userId courseId moduleId taskId
  { s with progress := upsertFirst key newRow s.progress }

/-- `DatabaseStorage.unlockAchievement`: insert an unlock row unless one
already exists for the (user, achievement) pair; silent no-op otherwise. -/
def unlockAchievement (s : Store) (userId achievementId : String) : Store :=
  if s.userAchievements.any
      (fun r => r.userId == userId && r.achievementId == achievementId) then s
  else
    { s with userAchievements :=
        s.userAchievements ++ [{ userId := userId, achievementId := achievementId }] }

/-- `DatabaseStorage.isTaskUnlocked`: a missing task is reported locked; the
first task (by `order`) of its module is unlocked; any later task is unlocked
iff the immediately preceding task has a completed progress row for the user.
`none` models the JavaScript `TypeError` thrown when the task is not found in
its module's active task list (`tasksInModule[taskIndex - 1]` undefined). -/
def isTaskUnlocked (s : Store) (userId taskId : String) : Option Bool :=
  match getTask s taskId with
  | none => some false
  | some task =>
      let tasksInModule := getTasksByModule s task.moduleId
      match tasksInModule.findIdx? (fun t => t.id == taskId) with
      | some 0 => some true
      | some (i + 1) =>
          match tasksInModule.get? i with
          | some prev =>
              some (s.progress.any (fun p =>
                p.userId == userId && p.taskId == some prev.id && p.isCompleted))
          | none => none
      | none => none

/-- The request body of `POST /api/tasks/:taskId/submit` after merging in the
session user and path task id (fields of `insertSubmissionSchema` the pipeline
reads; zod guarantees nonnegative counts, hence `Nat`). -/
structure SubmitBody where
  code : String
  language : Option String := none
  status : Option String := none
  testCasesPassed : Option Nat := none
  totalTestCases : Option Nat := none
deriving DecidableEq

/-- `insertSubmissionSchema.parse` on the merged body: both ids must be
24-hex-character ObjectIds and the code must be nonempty. -/
def validSubmissionBody (userId taskId : String) (b : SubmitBody) : Bool :=
  isValidObjectId userId && isValidObjectId taskId && b.code.length != 0

/-- `DatabaseStorage.createSubmission`: persist a new submission row; Mongo
schema defaults fill the counts with 0 when the body leaves them unset, and
the `_id` is modelled as the current collection size.  Returns the new store
and the new row's id. -/
def createSubmission (s : Store) (userId taskId : String) (b : SubmitBody) :
    Store × Nat :=
  let newId := s.submissions.length
  ({ s with submissions := s.submissions ++
      [{ id := newId, userId := userId, taskId := taskId, code := b.code,
         status := b.status,
         testCasesPassed := b.testCasesPassed.getD 0,
         totalTestCases := b.totalTestCases.getD 0 }] },
   newId)

/-- `DatabaseStorage.updateSubmission` as called on the evaluation result:
set status and both counts on the row with the given `_id`. -/
def updateSubmission (s : Store) (id : Nat) (status : String)
    (testCasesPassed totalTestCases : Nat) : Store :=
  { s with submissions :=
      s.submissions.map (fun r =>
        if r.id == id then
          { r with status := some status,
                   testCasesPassed := testCasesPassed,
                   totalTestCases := totalTestCases }
        else r) }

/-- One step of the achievement loops in `checkTaskCompletionAchievements`
(routes.ts) and `checkCourseCompletionAchievements` (certificate service):
unlock the achievement (silent no-op when already unlocked), then — regardless
of whether the unlock was new — credit its XP reward whenever that reward is
truthy (nonzero). -/
def grantAchievement (s : Store) (userId : String) (a : AchievementRow) : Store :=
  let s1 := unlockAchievement s userId a.id
  if a.xpReward != 0 then updateUserXP s1 userId a.xpReward else s1

/-- The fixed milestone thresholds of `checkTaskCompletionAchievements`. -/
def milestones : List Nat := [1, 5, 10, 25, 50, 100]

/-- `checkTaskCompletionAchievements` (routes.ts): count the user's completed
task-progress rows; for each reached milestone, find the first active
achievement whose lowercased name contains `task` and whose name contains the
milestone number, and grant it. -/
def checkTaskCompletionAchievements (s : Store) (userId : String) : Store :=
  let completedTasks :=
    ((getUserProgress s userId).filter
      (fun p => p.taskId.isSome && p.isCompleted)).length
  let achievements := s.achievements.filter (fun a => a.isActive)
  milestones.foldl
    (fun acc m =>
      if completedTasks ≥ m then
        match achievements.find? (fun a =>
            strContains (jsToLower a.name) "task" &&
            strContains a.name (toString m)) with
        | some a => grantAchievement acc userId a
        | none => acc
      else acc)
    s

/-- HTTP-level outcome of the modelled routes. -/
inductive RouteOutcome where
  | forbidden : String → RouteOutcome
  | notFound : String → RouteOutcome
  | badRequest : String → RouteOutcome
  | serverError : String → RouteOutcome
  | okSubmit : List CaseResult → Nat → Nat → RouteOutcome
  | okTask : RouteOutcome
deriving DecidableEq

/-- The side effects of the Accepted transition in the submit route: upsert the
completed progress row — the route passes `task.moduleId` for BOTH the course
and module arguments of `updateProgress` — credit `task.xpReward || 50` XP,
then re-evaluate the task-completion achievements. -/
def acceptedSideEffects (s : Store) (userId taskId : String) (task : TaskRow) :
    Store :=
  let s1 := updateProgress s userId task.moduleId (some task.moduleId) (some taskId)
  let s2 := updateUserXP s1 userId (jsOr task.xpReward 50)
  checkTaskCompletionAchievements s2 userId

/-- The evaluation step of the submit route: load every test case of the task
(hidden ones included), map each to its `{ input, expectedOutput }` pair with
empty-string defaults for the nullable columns, and run the Test Case
Evaluator over them. -/
def evaluateSubmission (s : Store) (taskId : String)
    (exec : TestCaseInput → Except String Judge0Result) : EvalResult :=
  let testCaseData := (getTestCasesByTask s taskId).map (fun tc =>
    { input := tc.input.getD "", expectedOutput := tc.expectedOutput.getD "" })
  executeWithTestCases exec testCaseData

/-- The two submission writes of the submit route's happy path composed: the
pending row persisted by `storage.createSubmission` before any execution, then
`storage.updateSubmission` writing the verdict and counts on it. -/
def persistVerdict (s : Store) (userId taskId : String) (body : SubmitBody)
    (status : String) (totalPassed totalTests : Nat) : Store :=
  let created := createSubmission s userId taskId body
  updateSubmission created.1 created.2 status totalPassed totalTests

/-- `POST /api/tasks/:taskId/submit` (routes.ts), for an authenticated user:
parse the body, check the unlock chain (403 when locked — a missing task is
reported locked by `isTaskUnlocked`), re-fetch the task (404 when missing),
persist the pending submission row, evaluate all test cases through the
Execution Client oracle `exec`, persist the verdict (`accepted` iff
`totalPassed` equals `totalTests`, else `wrong_answer`), and on acceptance run
the progress/XP/achievement side effects.  A `none` from `isTaskUnlocked`
(JavaScript `TypeError`) lands in the outer catch (400). -/
def submitTask (s : Store) (userId taskId : String) (body : SubmitBody)
    (exec : TestCaseInput → Except String Judge0Result) :
    Store × RouteOutcome :=
  if validSubmissionBody userId taskId body then
    match isTaskUnlocked s userId taskId with
    | none => (s, RouteOutcome.badRequest "Failed to submit code")
    | some false => (s, RouteOutcome.forbidden "Task is locked")
    | some true =>
        match getTask s taskId with
        | none => (s, RouteOutcome.notFound "Task not found")
        | some task =>
            let result := evaluateSubmission s taskId exec
            let status :=
              if result.totalPassed == result.totalTests then "accepted"
              else "wrong_answer"
            let s2 := persistVerdict s userId taskId body status
              result.totalPassed result.totalTests
            let s3 :=
              if status == "accepted" then
                acceptedSideEffects s2 userId taskId task
              else s2
            (s3, RouteOutcome.okSubmit result.results result.totalPassed
              result.totalTests)
  else (s, RouteOutcome.badRequest "Failed to submit code")

/-- `GET /api/tasks/:id` (routes.ts), for an authenticated user: 404 when the
task does not exist, 403 when it exists but is locked for the user, 200
otherwise (payload irrelevant here); the outer catch (500) absorbs the
`TypeError` case of the unlock check. -/
def getTaskRoute (s : Store) (userId taskId : String) : RouteOutcome :=
  match getTask s taskId with
  | none => RouteOutcome.notFound "Task not found"
  | some _ =>
      match isTaskUnlocked s userId taskId with
      | none => RouteOutcome.serverError "Failed to fetch task"
      | some false => RouteOutcome.forbidden "Task is locked"
      | some true => RouteOutcome.okTask

/-- `CertificateService.checkCourseCompletionAchievements`: grant every active
achievement whose lowercased name contains the course level or the word
`completion`; each grant credits its XP (when truthy) whether or not the
unlock was new. -/
def checkCourseCompletionAchievements (s : Store) (userId courseLevel : String) :
    Store :=
  let achievements := s.achievements.filter (fun a => a.isActive)
  let levelAchievements := achievements.filter (fun a =>
    strContains (jsToLower a.name) (jsToLower courseLevel) ||
    strContains (jsToLower a.name) "completion")
  levelAchievements.foldl (fun acc a => grantAchievement acc userId a) s

/-- `DatabaseStorage.createCertificate`: persist a certificate row; the fresh
generated number (`Date.now()` plus randomness in the source) is passed in as
`certNum`, and the unique index on `certificateNumber` makes the save throw on
a collision. -/
def createCertificate (s : Store) (userId courseId certNum : String) :
    Except String Store :=
  if s.certificates.any (fun c => c.certificateNumber == certNum) then
    Except.error "duplicate certificate number"
  else
    Except.ok { s with certificates :=
      s.certificates ++
        [{ userId := userId, courseId := courseId, certificateNumber := certNum }] }

/-- `CertificateService.generateCertificate`: require the course and user to
exist and every active module of the course to be matched by at least as many
completed module-progress rows of the user for that course; then persist a
certificate (no check that one already exists for the pair), credit
`course.xpReward || 500` XP, and run the course-completion achievement sweep.
Returns the updated store and the certificate number. -/
def generateCertificate (s : Store) (userId courseId certNum : String) :
    Except String (Store × String) :=
  let courseProgress := getUserCourseProgress s userId courseId
  match getCourse s courseId, getUser s userId with
  | some course, some _ =>
      let courseModules := getModulesByCourse s courseId
      let completedModules := courseProgress.filter (fun p =>
        p.moduleId.isSome && p.isCompleted)
      if completedModules.length < courseModules.length then
        Except.error "Course not completed yet"
      else
        match createCertificate s userId courseId certNum with
        | Except.error e => Except.error e
        | Except.ok s1 =>
            let s2 := updateUserXP s1 userId (jsOr course.xpReward 500)
            let s3 := checkCourseCompletionAchievements s2 userId course.level
            Except.ok (s3, certNum)
  | _, _ => Except.error "Course or user not found"

/-- Fixture: a user ObjectId. -/
def userId0 : String := "aaaaaaaaaaaaaaaaaaaaaaaa"

/-- Fixture: the ObjectId of the first task. -/
def taskId0 : String := "bbbbbbbbbbbbbbbbbbbbbbbb"

/-- Fixture: the ObjectId of a second task (later in the module order). -/
def taskId1 : String := "cccccccccccccccccccccccc"

/-- Fixture: a module ObjectId. -/
def moduleId0 : String := "dddddddddddddddddddddddd"

/-- Fixture: the ObjectId of the course owning the module. -/
def courseId0 : String := "eeeeeeeeeeeeeeeeeeeeeeee"

/-- Fixture: a well-formed ObjectId matching no stored task. -/
def missingId0 : String := "ffffffffffffffffffffffff"

/-- Fixture: a minimal valid submit body. -/
def body0 : SubmitBody := { code := "x" }

/-- Fixture: a valid submit body carrying caller-supplied counts with
`testCasesPassed` exceeding `totalTestCases`. -/
def body7 : SubmitBody :=
  { code := "x", testCasesPassed := some 5, totalTestCases := some 2 }

/-- Fixture: an Execution Client oracle answering every case with an Accepted
terminal result whose stdout matches the expected output. -/
def execMatch : TestCaseInput → Except String Judge0Result :=
  fun tc => Except.ok { status := { id := 3, description := "Accepted" },
                        stdout := some tc.expectedOutput }

/-- Fixture: a terminal non-accepted result whose stdout nevertheless matches
the expected output `7`. -/
def resultWrong : Judge0Result :=
  { status := { id := 4, description := "Wrong Answer" }, stdout := some "7" }

/-- Fixture: an Execution Client oracle answering every case with
`resultWrong`. -/
def execWrongStatus : TestCaseInput → Except String Judge0Result :=
  fun _ => Except.ok resultWrong

/-- Fixture: an Execution Client oracle failing every case with a transport
error. -/
def execErr : TestCaseInput → Except String Judge0Result :=
  fun _ => Except.error "Judge0 API error: 503 Service Unavailable"

/-- Fixture: a poll stream that stays In Queue forever. -/
def pollQueued : Nat → Judge0Result :=
  fun _ => { status := { id := 1, description := "In Queue" } }

/-- Fixture: one test case expecting output `7`. -/
def tc7 : TestCaseInput := { input := "in", expectedOutput := "7" }

/-- Fixture store: one user, one course, one module, one task with no test
cases at all. -/
def store0 : Store :=
  { users := [{ id := userId0, xp := 0 }]
    courses := [{ id := courseId0, level := "beginner", xpReward := 300, isActive := true }]
    modules := [{ id := moduleId0, courseId := courseId0, order := 1, isActive := true }]
    tasks := [{ id := taskId0, moduleId := moduleId0, xpReward := 0, order := 1, isActive := true }]
    testCaseRows := []
    progress := []
    submissions := []
    achievements := []
    userAchievements := []
    certificates := [] }

/-- Fixture store: like `store0` but the task has XP reward 70 and one test
case with input `1` and expected output `2`. -/
def store1 : Store :=
  { users := [{ id := userId0, xp := 0 }]
    courses := [{ id := courseId0, level := "beginner", xpReward := 300, isActive := true }]
    modules := [{ id := moduleId0, courseId := courseId0, order := 1, isActive := true }]
    tasks := [{ id := taskId0, moduleId := moduleId0, xpReward := 70, order := 1, isActive := true }]
    testCaseRows := [{ taskId := taskId0, input := some "1", expectedOutput := some "2", isHidden := false, order := 1 }]
    progress := []
    submissions := []
    achievements := []
    userAchievements := []
    certificates := [] }

/-- Fixture store: two tasks in the module (orders 1 and 2) and no progress,
so the second task is locked for the user. -/
def storeLocked : Store :=
  { users := [{ id := userId0, xp := 0 }]
    courses := [{ id := courseId0, level := "beginner", xpReward := 300, isActive := true }]
    modules := [{ id := moduleId0, courseId := courseId0, order := 1, isActive := true }]
    tasks := [{ id := taskId0, moduleId := moduleId0, xpReward := 0, order := 1, isActive := true },
              { id := taskId1, moduleId := moduleId0, xpReward := 0, order := 2, isActive := true }]
    testCaseRows := []
    progress := []
    submissions := []
    achievements := []
    userAchievements := []
    certificates := [] }

/-- Fixture store: state right after a first milestone grant — the user has one
completed task-progress row, the `Task 1` achievement (XP reward 100) exists,
is already unlocked for the user, and its XP was already credited once
(user XP 100). -/
def storeAch : Store :=
  { users := [{ id := userId0, xp := 100 }]
    courses := []
    modules := []
    tasks := []
    testCaseRows := []
    progress := [{ userId := userId0, courseId := moduleId0, moduleId := some moduleId0, taskId := some taskId0, isCompleted := true }]
    submissions := []
    achievements := [{ id := "ach1", name := "Task 1", xpReward := 100, isActive := true }]
    userAchievements := [{ userId := userId0, achievementId := "ach1" }]
    certificates := [] }

/-- Fixture store: the user completed the course's single module and already
holds certificate `CERT1` for it; course XP (300) was already credited once
(user XP 300). -/
def storeCert : Store :=
  { users := [{ id := userId0, xp := 300 }]
    courses := [{ id := courseId0, level := "beginner", xpReward := 300, isActive := true }]
    modules := [{ id := moduleId0, courseId := courseId0, order := 1, isActive := true }]
    tasks := []
    testCaseRows := []
    progress := [{ userId := userId0, courseId := courseId0, moduleId := some moduleId0, taskId := none, isCompleted := true }]
    submissions := []
    achievements := []
    userAchievements := []
    certificates := [{ userId := userId0, courseId := courseId0, certificateNumber := "CERT1" }] }

theorem executeWithTestCases_results_get? (exec : TestCaseInput → Except String Judge0Result)
    (cases : List TestCaseInput) (i : Nat) :
    (executeWithTestCases exec cases).results.get? i =
      (cases.get? i).map (fun tc => evalCase tc (exec tc)) := by
  induction cases generalizing i with
  | nil => simp [executeWithTestCases]
  | cons tc rest ih =>
      cases i with
      | zero => simp [executeWithTestCases]
      | succ n => simpa [executeWithTestCases] using ih n

theorem executeWithTestCases_results_length
    (exec : TestCaseInput → Except String Judge0Result) (cases : List TestCaseInput) :
    (executeWithTestCases exec cases).results.length = cases.length := by
  induction cases with
  | nil => rfl
  | cons tc rest ih => simp [executeWithTestCases, ih]

theorem executeWithTestCases_totalTests
    (exec : TestCaseInput → Except String Judge0Result) (cases : List TestCaseInput) :
    (executeWithTestCases exec cases).totalTests = cases.length := by
  induction cases with
  | nil => rfl
  | cons tc rest ih => simp [executeWithTestCases, ih]

theorem executeWithTestCases_totalPassed_le
    (exec : TestCaseInput → Except String Judge0Result) (cases : List TestCaseInput) :
    (executeWithTestCases exec cases).totalPassed ≤
      (executeWithTestCases exec cases).totalTests := by
  induction cases with
  | nil => exact Nat.le_refl 0
  | cons tc rest ih =>
      simp only [executeWithTestCases]
      by_cases h : (evalCase tc (exec tc)).passed <;> simp [h] <;> omega

theorem executeWithTestCases_totalPassed_zero
    (exec : TestCaseInput → Except String Judge0Result) (cases : List TestCaseInput)
    (h : ∀ tc, ∃ e, exec tc = Except.error e) :
    (executeWithTestCases exec cases).totalPassed = 0 := by
  induction cases with
  | nil => rfl
  | cons tc rest ih =>
      obtain ⟨e, he⟩ := h tc
      simp [executeWithTestCases, he, evalCase, ih]

theorem executeWithTestCases_error_results
    (exec : TestCaseInput → Except String Judge0Result) (cases : List TestCaseInput)
    (h : ∀ tc, ∃ e, exec tc = Except.error e) :
    ∀ res ∈ (executeWithTestCases exec cases).results,
      res.passed = false ∧ ∃ e, res.status = "Error: " ++ e := by
  induction cases with
  | nil => intro res hres; simp [executeWithTestCases] at hres
  | cons tc rest ih =>
      intro res hres
      simp only [executeWithTestCases, List.mem_cons] at hres
      rcases hres with hres | hres
      · obtain ⟨e, he⟩ := h tc
        subst hres
        rw [he]
        exact ⟨rfl, e, rfl⟩
      · exact ih res hres

theorem pollLoop_nonterminal (poll : Nat → Judge0Result)
    (h : ∀ n, (poll n).status.id = 1 ∨ (poll n).status.id = 2) :
    ∀ fuel attempt, pollLoop poll fuel attempt = Except.error "Submission timed out" := by
  intro fuel
  induction fuel with
  | zero => intro _; rfl
  | succ k ih =>
      intro attempt
      show (if (poll attempt).status.id != 1 && (poll attempt).status.id != 2
            then Except.ok (poll attempt)
            else pollLoop poll k (attempt + 1)) = _
      rcases h attempt with h1 | h1 <;> rw [h1] <;> simpa using ih (attempt + 1)

/-- C1: a test case evaluated by `executeWithTestCases` is marked passed iff
the terminal status id is exactly 3 (Accepted) AND the trimmed stdout equals
the trimmed expected output; matching output under a non-accepted terminal
status is still a failure, and internal whitespace and case stay
significant (the comparison is plain equality of the trimmed strings). -/
theorem c1_case_passed_iff (cases : List TestCaseInput)
    (exec : TestCaseInput → Except String Judge0Result) (i : Nat)
    (tc : TestCaseInput) (r : Judge0Result) (res : CaseResult)
    (h1 : cases.get? i = some tc) (h2 : exec tc = Except.ok r)
    (h3 : (executeWithTestCases exec cases).results.get? i = some res) :
    res.passed = true ↔
      (r.status.id = 3 ∧ jsTrim (r.stdout.getD "") = jsTrim tc.expectedOutput) := by
  rw [executeWithTestCases_results_get?, h1, Option.map_some'] at h3
  rw [h2] at h3
  obtain rfl : evalCase tc (Except.ok r) = res := Option.some.inj h3
  simp only [evalCase, Bool.and_eq_true, beq_iff_eq]
  constructor
  · rintro ⟨hout, hid⟩; exact ⟨hid, hout⟩
  · rintro ⟨hid, hout⟩; exact ⟨hout, hid⟩

/-- C1 witness: a terminal Wrong Answer (status id 4) whose stdout matches the
expected output `7` is still evaluated as a failed case. -/
theorem c1_witness :
    ({ input := "in", expectedOutput := "7", actualOutput := "7", passed := false,
       status := "Wrong Answer" } : CaseResult).passed = true ↔
      (resultWrong.status.id = 3 ∧
        jsTrim (resultWrong.stdout.getD "") = jsTrim tc7.expectedOutput) :=
  c1_case_passed_iff [tc7] execWrongStatus 0 tc7 resultWrong _ rfl rfl rfl

/-- C6: the evaluator returns one per-case result for every input case in
input order; a case whose run raises an Execution Client error is recorded as
failed with a synthetic `Error: ...` status carrying the error text while the
other cases still evaluate; and exhausting the 30-attempt polling budget while
the service stays queued/processing raises the `Submission timed out`
error. -/
theorem c6_error_isolation (cases : List TestCaseInput)
    (exec : TestCaseInput → Except String Judge0Result) :
    ((executeWithTestCases exec cases).results.length = cases.length) ∧
    (∀ i tc e, cases.get? i = some tc → exec tc = Except.error e →
      (executeWithTestCases exec cases).results.get? i =
        some { input := tc.input, expectedOutput := tc.expectedOutput,
               actualOutput := "", passed := false, status := "Error: " ++ e }) ∧
    (∀ poll : Nat → Judge0Result,
      (∀ n, (poll n).status.id = 1 ∨ (poll n).status.id = 2) →
      executeCode poll = Except.error "Submission timed out") := by
  refine ⟨executeWithTestCases_results_length exec cases, ?_, ?_⟩
  · intro i tc e h1 h2
    rw [executeWithTestCases_results_get?, h1, Option.map_some', h2]
    rfl
  · intro poll h
    exact pollLoop_nonterminal poll h 30 0

/-- C6 witness: with a transport-failing Execution Client the single case is
recorded failed with the error text, and a forever-queued poll stream times
out after the attempt budget. -/
theorem c6_witness :
    (executeWithTestCases execErr [tc7]).results.get? 0 =
      some { input := "in", expectedOutput := "7", actualOutput := "",
             passed := false,
             status := "Error: " ++ "Judge0 API error: 503 Service Unavailable" } ∧
    executeCode pollQueued = Except.error "Submission timed out" :=
  ⟨(c6_error_isolation [tc7] execErr).2.1 0 tc7 _ rfl rfl,
   (c6_error_isolation [tc7] execErr).2.2 pollQueued (fun _ => Or.inl rfl)⟩

theorem updateUserXP_progress (s : Store) (uid : String) (amt : Nat) :
    (updateUserXP s uid amt).progress = s.progress := rfl

theorem updateUserXP_submissions (s : Store) (uid : String) (amt : Nat) :
    (updateUserXP s uid amt).submissions = s.submissions := rfl

theorem updateUserXP_certificates (s : Store) (uid : String) (amt : Nat) :
    (updateUserXP s uid amt).certificates = s.certificates := rfl

theorem users_find?_updateUserXP (s : Store) (uid' : String) (amt : Nat) (uid : String) :
    (updateUserXP s uid' amt).users.find? (fun u => u.id == uid) =
      (s.users.find? (fun u => u.id == uid)).map
        (fun u => if u.id == uid' then { u with xp := u.xp + amt } else u) := by
  unfold updateUserXP
  dsimp only
  rw [List.find?_map]
  have hp : ((fun (u : UserRow) => u.id == uid) ∘
      (fun (u : UserRow) => if u.id == uid' then { u with xp := u.xp + amt } else u)) =
      (fun (u : UserRow) => u.id == uid) := by
    funext u
    by_cases h : u.id == uid' <;> simp [h, Function.comp]
  rw [hp]

theorem userXp_updateUserXP_eq (s : Store) (uid : String) (amt : Nat) (u : UserRow)
    (hu : s.users.find? (fun x => x.id == uid) = some u) :
    userXp (updateUserXP s uid amt) uid = u.xp + amt := by
  unfold userXp
  rw [users_find?_updateUserXP, hu]
  have hid : (u.id == uid) = true :=
    List.find?_some (p := fun (x : UserRow) => x.id == uid) hu
  simp [beq_iff_eq.mp hid]

theorem userXp_updateUserXP_le (s : Store) (uid' : String) (amt : Nat) (uid : String) :
    userXp s uid ≤ userXp (updateUserXP s uid' amt) uid := by
  unfold userXp
  rw [users_find?_updateUserXP]
  cases h : s.users.find? (fun x => x.id == uid) with
  | none => simp
  | some u =>
      simp only [Option.map_some', Option.getD_some]
      split
      · exact Nat.le_add_right u.xp amt
      · exact Nat.le_refl u.xp

theorem unlockAchievement_users (s : Store) (uid aid : String) :
    (unlockAchievement s uid aid).users = s.users := by
  unfold unlockAchievement; split <;> rfl

theorem unlockAchievement_progress (s : Store) (uid aid : String) :
    (unlockAchievement s uid aid).progress = s.progress := by
  unfold unlockAchievement; split <;> rfl

theorem unlockAchievement_submissions (s : Store) (uid aid : String) :
    (unlockAchievement s uid aid).submissions = s.submissions := by
  unfold unlockAchievement; split <;> rfl

theorem unlockAchievement_certificates (s : Store) (uid aid : String) :
    (unlockAchievement s uid aid).certificates = s.certificates := by
  unfold unlockAchievement; split <;> rfl

theorem userXp_unlockAchievement (s : Store) (uid aid x : String) :
    userXp (unlockAchievement s uid aid) x = userXp s x := by
  unfold userXp
  rw [unlockAchievement_users]

theorem grantAchievement_progress (s : Store) (uid : String) (a : AchievementRow) :
    (grantAchievement s uid a).progress = s.progress := by
  unfold grantAchievement
  split
  · exact unlockAchievement_progress s uid a.id
  · exact unlockAchievement_progress s uid a.id

theorem grantAchievement_submissions (s : Store) (uid : String) (a : AchievementRow) :
    (grantAchievement s uid a).submissions = s.submissions := by
  unfold grantAchievement
  split
  · exact unlockAchievement_submissions s uid a.id
  · exact unlockAchievement_submissions s uid a.id

theorem grantAchievement_certificates (s : Store) (uid : String) (a : AchievementRow) :
    (grantAchievement s uid a).certificates = s.certificates := by
  unfold grantAchievement
  split
  · exact unlockAchievement_certificates s uid a.id
  · exact unlockAchievement_certificates s uid a.id

theorem userXp_grantAchievement_le (s : Store) (uid : String) (a : AchievementRow)
    (x : String) : userXp s x ≤ userXp (grantAchievement s uid a) x := by
  unfold grantAchievement
  split
  · calc userXp s x = userXp (unlockAchievement s uid a.id) x :=
          (userXp_unlockAchievement s uid a.id x).symm
      _ ≤ _ := userXp_updateUserXP_le (unlockAchievement s uid a.id) uid a.xpReward x
  · exact Nat.le_of_eq (userXp_unlockAchievement s uid a.id x).symm

theorem foldl_preserves_proj {β γ : Type} (f : Store → β → Store) (proj : Store → γ)
    (hstep : ∀ s b, proj (f s b) = proj s) :
    ∀ (l : List β) (s : Store), proj (List.foldl f s l) = proj s := by
  intro l
  induction l with
  | nil => intro s; rfl
  | cons b bs ih => intro s; rw [List.foldl_cons, ih, hstep]

theorem foldl_userXp_mono {β : Type} (f : Store → β → Store) (x : String)
    (hstep : ∀ s b, userXp s x ≤ userXp (f s b) x) :
    ∀ (l : List β) (s : Store), userXp s x ≤ userXp (List.foldl f s l) x := by
  intro l
  induction l with
  | nil => intro s; exact Nat.le_refl _
  | cons b bs ih => intro s; exact Nat.le_trans (hstep s b) (ih (f s b))

theorem checkTaskCompletionAchievements_progress (s : Store) (uid : String) :
    (checkTaskCompletionAchievements s uid).progress = s.progress := by
  unfold checkTaskCompletionAchievements
  apply foldl_preserves_proj
  intro s' m
  dsimp only
  split
  · split
    · exact grantAchievement_progress ..
    · rfl
  · rfl

theorem checkTaskCompletionAchievements_submissions (s : Store) (uid : String) :
    (checkTaskCompletionAchievements s uid).submissions = s.submissions := by
  unfold checkTaskCompletionAchievements
  apply foldl_preserves_proj
  intro s' m
  dsimp only
  split
  · split
    · exact grantAchievement_submissions ..
    · rfl
  · rfl

theorem userXp_checkTaskCompletionAchievements_le (s : Store) (uid x : String) :
    userXp s x ≤ userXp (checkTaskCompletionAchievements s uid) x := by
  unfold checkTaskCompletionAchievements
  apply foldl_userXp_mono
  intro s' m
  dsimp only
  split
  · split
    · exact userXp_grantAchievement_le ..
    · exact Nat.le_refl _
  · exact Nat.le_refl _

theorem checkCourseCompletionAchievements_certificates (s : Store) (uid lvl : String) :
    (checkCourseCompletionAchievements s uid lvl).certificates = s.certificates := by
  unfold checkCourseCompletionAchievements
  apply foldl_preserves_proj
  intro s' a
  exact grantAchievement_certificates ..

theorem userXp_checkCourseCompletionAchievements_le (s : Store) (uid lvl x : String) :
    userXp s x ≤ userXp (checkCourseCompletionAchievements s uid lvl) x := by
  unfold checkCourseCompletionAchievements
  apply foldl_userXp_mono
  intro s' a
  exact userXp_grantAchievement_le ..

theorem mem_upsertFirst {α : Type} (key : α → Bool) (newRow : α) :
    ∀ l : List α, newRow ∈ upsertFirst key newRow l := by
  intro l
  induction l with
  | nil => exact List.mem_singleton.mpr rfl
  | cons x xs ih =>
      unfold upsertFirst
      split
      · exact List.mem_cons_self ..
      · exact List.mem_cons_of_mem x ih

theorem updateProgress_users (s : Store) (uid cid : String) (mid tid : Option String) :
    (updateProgress s uid cid mid tid).users = s.users := rfl

theorem updateProgress_submissions (s : Store) (uid cid : String) (mid tid : Option String) :
    (updateProgress s uid cid mid tid).submissions = s.submissions := rfl

theorem updateProgress_mem (s : Store) (uid cid : String) (mid tid : Option String) :
    ({ userId := uid, courseId := cid, moduleId := mid, taskId := tid,
       isCompleted := true } : ProgressRow) ∈ (updateProgress s uid cid mid tid).progress := by
  unfold updateProgress
  exact mem_upsertFirst ..

theorem persistVerdict_users (s : Store) (uid tid : String) (body : SubmitBody)
    (st : String) (p t : Nat) : (persistVerdict s uid tid body st p t).users = s.users := rfl

theorem persistVerdict_progress (s : Store) (uid tid : String) (body : SubmitBody)
    (st : String) (p t : Nat) :
    (persistVerdict s uid tid body st p t).progress = s.progress := rfl

theorem persistVerdict_submissions_get? (s : Store) (uid tid : String) (body : SubmitBody)
    (st : String) (p t : Nat) :
    (persistVerdict s uid tid body st p t).submissions.get? s.submissions.length =
      some { id := s.submissions.length, userId := uid, taskId := tid,
             code := body.code, status := some st,
             testCasesPassed := p, totalTestCases := t } := by
  unfold persistVerdict createSubmission updateSubmission
  dsimp only
  rw [List.get?_map, List.get?_concat_length, Option.map_some']
  simp

theorem acceptedSideEffects_submissions (s : Store) (uid tid : String) (task : TaskRow) :
    (acceptedSideEffects s uid tid task).submissions = s.submissions := by
  unfold acceptedSideEffects
  rw [checkTaskCompletionAchievements_submissions]
  rfl

theorem acceptedSideEffects_mem_progress (s : Store) (uid tid : String) (task : TaskRow) :
    ({ userId := uid, courseId := task.moduleId, moduleId := some task.moduleId,
       taskId := some tid, isCompleted := true } : ProgressRow) ∈
      (acceptedSideEffects s uid tid task).progress := by
  unfold acceptedSideEffects
  rw [checkTaskCompletionAchievements_progress, updateUserXP_progress]
  exact updateProgress_mem ..

theorem userXp_acceptedSideEffects_ge (s : Store) (uid tid : String) (task : TaskRow)
    (u : UserRow) (hu : s.users.find? (fun x => x.id == uid) = some u) :
    u.xp + jsOr task.xpReward 50 ≤ userXp (acceptedSideEffects s uid tid task) uid := by
  unfold acceptedSideEffects
  have h2 : userXp (updateUserXP
      (updateProgress s uid task.moduleId (some task.moduleId) (some tid)) uid
      (jsOr task.xpReward 50)) uid = u.xp + jsOr task.xpReward 50 := by
    apply userXp_updateUserXP_eq
    rw [updateProgress_users]
    exact hu
  calc u.xp + jsOr task.xpReward 50 = _ := h2.symm
    _ ≤ _ := userXp_checkTaskCompletionAchievements_le ..

theorem submitTask_ok_inv (s : Store) (uid tid : String) (body : SubmitBody)
    (exec : TestCaseInput → Except String Judge0Result) (s' : Store)
    (res : List CaseResult) (p t : Nat)
    (h : submitTask s uid tid body exec = (s', RouteOutcome.okSubmit res p t)) :
    ∃ task, getTask s tid = some task ∧
      res = (evaluateSubmission s tid exec).results ∧
      p = (evaluateSubmission s tid exec).totalPassed ∧
      t = (evaluateSubmission s tid exec).totalTests ∧
      s' = (if p = t
            then acceptedSideEffects (persistVerdict s uid tid body "accepted" p t) uid tid task
            else persistVerdict s uid tid body "wrong_answer" p t) := by
  unfold submitTask at h
  split at h
  · split at h
    next => simp at h
    next => simp at h
    next =>
      split at h
      next => simp at h
      next task htask =>
        simp only [Prod.mk.injEq, RouteOutcome.okSubmit.injEq] at h
        obtain ⟨hs, hres, hp, ht⟩ := h
        subst hres hp ht
        refine ⟨task, htask, rfl, rfl, rfl, ?_⟩
        by_cases hpt : (evaluateSubmission s tid exec).totalPassed =
            (evaluateSubmission s tid exec).totalTests
        · rw [if_pos hpt]
          rw [← hs]
          have hb : ((evaluateSubmission s tid exec).totalPassed ==
              (evaluateSubmission s tid exec).totalTests) = true := beq_iff_eq.mpr hpt
          rw [hb]
          simp
        · rw [if_neg hpt]
          rw [← hs]
          have hb : ((evaluateSubmission s tid exec).totalPassed ==
              (evaluateSubmission s tid exec).totalTests) = false :=
            beq_eq_false_iff_ne.mpr hpt
          rw [hb]
          simp
  · simp at h

theorem evaluateSubmission_totalPassed_le (s : Store) (tid : String)
    (exec : TestCaseInput → Except String Judge0Result) :
    (evaluateSubmission s tid exec).totalPassed ≤ (evaluateSubmission s tid exec).totalTests :=
  executeWithTestCases_totalPassed_le exec _

theorem evaluateSubmission_totalTests (s : Store) (tid : String)
    (exec : TestCaseInput → Except String Judge0Result) :
    (evaluateSubmission s tid exec).totalTests = (getTestCasesByTask s tid).length := by
  unfold evaluateSubmission
  rw [executeWithTestCases_totalTests, List.length_map]

/-- C2 (amended): whenever the submit route reaches a verdict, the persisted
status is `accepted` exactly when `totalPassed` equals `totalCases` — a task
with zero test cases therefore yields an accepted submission (0 = 0), contrary
to the claim's `totalCases > 0` side condition — and `wrong_answer` exactly
when `totalPassed < totalCases`. -/
theorem c2_verdict_amended (s : Store) (uid tid : String) (body : SubmitBody)
    (exec : TestCaseInput → Except String Judge0Result) (s' : Store)
    (res : List CaseResult) (p t : Nat)
    (h : submitTask s uid tid body exec = (s', RouteOutcome.okSubmit res p t)) :
    ∃ row, s'.submissions.get? s.submissions.length = some row ∧
      row.testCasesPassed = p ∧ row.totalTestCases = t ∧
      (row.status = some "accepted" ↔ p = t) ∧
      (row.status = some "wrong_answer" ↔ p < t) := by
  obtain ⟨task, htask, hres, hp, ht, hs⟩ := submitTask_ok_inv s uid tid body exec s' res p t h
  have hple : p ≤ t := by
    rw [hp, ht]; exact evaluateSubmission_totalPassed_le s tid exec
  by_cases hpt : p = t
  · rw [hs, if_pos hpt]
    refine ⟨{ id := s.submissions.length, userId := uid, taskId := tid,
              code := body.code, status := some "accepted",
              testCasesPassed := p, totalTestCases := t }, ?_, rfl, rfl, ?_, ?_⟩
    · rw [acceptedSideEffects_submissions]
      exact persistVerdict_submissions_get? s uid tid body "accepted" p t
    · simpa using hpt
    · constructor
      · intro hcontra; simp at hcontra
      · intro hlt; omega
  · rw [hs, if_neg hpt]
    refine ⟨{ id := s.submissions.length, userId := uid, taskId := tid,
              code := body.code, status := some "wrong_answer",
              testCasesPassed := p, totalTestCases := t },
        persistVerdict_submissions_get? s uid tid body "wrong_answer" p t, rfl, rfl, ?_, ?_⟩
    · constructor
      · intro hcontra; simp at hcontra
      · intro heq; exact absurd heq hpt
    · constructor
      · intro _; omega
      · intro _; rfl

/-- C2 counterexample: on a task with zero test cases the route persists
status `accepted` with `totalTestCases = 0`, so the claim's requirement that
accepted implies `totalCases > 0` fails at this input. -/
theorem c2_counterexample :
    getTestCasesByTask store0 taskId0 = [] ∧
    ¬ (∀ row ∈ (submitTask store0 userId0 taskId0 body0 execMatch).1.submissions,
        row.status = some "accepted" → 0 < row.totalTestCases) := by
  refine ⟨rfl, ?_⟩
  intro hall
  have hlist : (submitTask store0 userId0 taskId0 body0 execMatch).1.submissions =
      [{ id := 0, userId := userId0, taskId := taskId0, code := "x",
         status := some "accepted", testCasesPassed := 0, totalTestCases := 0 }] := rfl
  have hmem : ({ id := 0, userId := userId0, taskId := taskId0, code := "x",
                 status := some "accepted", testCasesPassed := 0,
                 totalTestCases := 0 } : SubmissionRow) ∈
      (submitTask store0 userId0 taskId0 body0 execMatch).1.submissions := by
    rw [hlist]
    exact List.mem_singleton.mpr rfl
  exact absurd (hall _ hmem rfl) (by simp)

/-- C2 witness: the amended verdict characterisation instantiated on the
zero-test-case fixture (0 passed of 0 → accepted). -/
theorem c2_witness :
    ∃ row, (submitTask store0 userId0 taskId0 body0 execMatch).1.submissions.get? 0 =
        some row ∧
      row.testCasesPassed = 0 ∧ row.totalTestCases = 0 ∧
      (row.status = some "accepted" ↔ (0 : Nat) = 0) ∧
      (row.status = some "wrong_answer" ↔ (0 : Nat) < 0) := by
  have h := c2_verdict_amended store0 userId0 taskId0 body0 execMatch
    (submitTask store0 userId0 taskId0 body0 execMatch).1 [] 0 0 rfl
  simpa using h

/-- C3 (amended): on an Accepted transition the route upserts a completed
progress row whose course component is the task's MODULE id (the route passes
`task.moduleId` for both the course and module arguments), not the course
owning the module, and credits `task.xpReward` XP when that reward is nonzero
(50 when it is zero/unset); achievement re-evaluation can only add more XP on
top. -/
theorem c3_accept_side_effects_amended (s : Store) (uid tid : String)
    (body : SubmitBody) (exec : TestCaseInput → Except String Judge0Result)
    (s' : Store) (res : List CaseResult) (p t : Nat) (task : TaskRow) (u : UserRow)
    (h : submitTask s uid tid body exec = (s', RouteOutcome.okSubmit res p t))
    (hacc : p = t)
    (htask : getTask s tid = some task)
    (hu : s.users.find? (fun x => x.id == uid) = some u) :
    ({ userId := uid, courseId := task.moduleId, moduleId := some task.moduleId,
       taskId := some tid, isCompleted := true } : ProgressRow) ∈ s'.progress ∧
    u.xp + jsOr task.xpReward 50 ≤ userXp s' uid := by
  obtain ⟨task', htask', hres, hp, ht, hs⟩ := submitTask_ok_inv s uid tid body exec s' res p t h
  have htt : task' = task := by
    rw [htask] at htask'
    exact Option.some.inj htask'.symm
  subst htt
  rw [hs, if_pos hacc]
  constructor
  · exact acceptedSideEffects_mem_progress ..
  · apply userXp_acceptedSideEffects_ge
    rw [persistVerdict_users]
    exact hu

/-- C3 counterexample: an accepted run on the fixture persists a progress row
whose course component is the module id `dddd...`, while the course owning the
module is `eeee...` — the two differ, refuting the claim's requirement that
the course component be the course owning the task's module. -/
theorem c3_counterexample :
    (submitTask store1 userId0 taskId0 body0 execMatch).1.progress =
      [{ userId := userId0, courseId := moduleId0, moduleId := some moduleId0,
         taskId := some taskId0, isCompleted := true }] ∧
    store1.modules.map (fun m => (m.id, m.courseId)) = [(moduleId0, courseId0)] ∧
    getTask store1 taskId0 =
      some { id := taskId0, moduleId := moduleId0, xpReward := 70, order := 1,
             isActive := true } ∧
    moduleId0 ≠ courseId0 :=
  ⟨rfl, rfl, rfl, by decide⟩

/-- C3 witness: the amended side-effect theorem instantiated on the accepted
fixture run (XP reward 70, user starting at 0 XP). -/
theorem c3_witness :
    ({ userId := userId0, courseId := moduleId0, moduleId := some moduleId0,
       taskId := some taskId0, isCompleted := true } : ProgressRow) ∈
      (submitTask store1 userId0 taskId0 body0 execMatch).1.progress ∧
    (0 : Nat) + jsOr 70 50 ≤
      userXp (submitTask store1 userId0 taskId0 body0 execMatch).1 userId0 := by
  have h := c3_accept_side_effects_amended store1 userId0 taskId0 body0 execMatch
    (submitTask store1 userId0 taskId0 body0 execMatch).1
    [{ input := "1", expectedOutput := "2", actualOutput := "2", passed := true,
       status := "Accepted" }] 1 1
    { id := taskId0, moduleId := moduleId0, xpReward := 70, order := 1, isActive := true }
    { id := userId0, xp := 0 }
    rfl rfl rfl rfl
  exact h

/-- C5 (amended): per-case transport/service errors do NOT end the submission
as `compilation_error`: the evaluator records each failing case with a
synthetic `Error: ...` status and the route persists the ordinary
`wrong_answer` verdict (with 0 passed) whenever the task has at least one test
case; the error texts are surfaced in the per-case results returned to the
caller. -/
theorem c5_transport_errors_amended (s : Store) (uid tid : String)
    (body : SubmitBody) (exec : TestCaseInput → Except String Judge0Result)
    (s' : Store) (res : List CaseResult) (p t : Nat)
    (h : submitTask s uid tid body exec = (s', RouteOutcome.okSubmit res p t))
    (herr : ∀ tc, ∃ e, exec tc = Except.error e)
    (ht1 : 1 ≤ t) :
    p = 0 ∧
    (∀ r ∈ res, r.passed = false ∧ ∃ e, r.status = "Error: " ++ e) ∧
    s'.submissions.get? s.submissions.length =
      some { id := s.submissions.length, userId := uid, taskId := tid,
             code := body.code, status := some "wrong_answer",
             testCasesPassed := 0, totalTestCases := t } := by
  obtain ⟨task, htask, hres, hp, ht, hs⟩ := submitTask_ok_inv s uid tid body exec s' res p t h
  have hp0 : p = 0 := by
    rw [hp]
    exact executeWithTestCases_totalPassed_zero exec _ herr
  have hne : ¬ (p = t) := by omega
  rw [hs, if_neg hne]
  refine ⟨hp0, ?_, ?_⟩
  · intro r hr
    rw [hres] at hr
    exact executeWithTestCases_error_results exec _ herr r hr
  · rw [hp0] at hs ⊢
    subst hp0
    exact persistVerdict_submissions_get? s uid tid body "wrong_answer" 0 t

/-- C5 counterexample: with the execution service failing every call, the
fixture submission (one test case) is persisted with status `wrong_answer`,
not the `compilation_error` terminal status the claim requires. -/
theorem c5_counterexample :
    ((submitTask store1 userId0 taskId0 body0 execErr).1.submissions.map
        (fun r => r.status)) = [some "wrong_answer"] ∧
    ¬ ((submitTask store1 userId0 taskId0 body0 execErr).1.submissions.map
        (fun r => r.status)) = [some "compilation_error"] :=
  ⟨rfl, by decide⟩

/-- C5 witness: the amended transport-error theorem instantiated on the
all-errors fixture run. -/
theorem c5_witness :
    (0 : Nat) = 0 ∧
    (∀ r ∈ [({ input := "1", expectedOutput := "2", actualOutput := "",
               passed := false,
               status := "Error: Judge0 API error: 503 Service Unavailable" } : CaseResult)],
      r.passed = false ∧ ∃ e, r.status = "Error: " ++ e) ∧
    (submitTask store1 userId0 taskId0 body0 execErr).1.submissions.get? 0 =
      some { id := 0, userId := userId0, taskId := taskId0, code := "x",
             status := some "wrong_answer", testCasesPassed := 0,
             totalTestCases := 1 } := by
  have h := c5_transport_errors_amended store1 userId0 taskId0 body0 execErr
    (submitTask store1 userId0 taskId0 body0 execErr).1
    [{ input := "1", expectedOutput := "2", actualOutput := "",
       passed := false,
       status := "Error: Judge0 API error: 503 Service Unavailable" }] 0 1
    rfl (fun _ => ⟨"Judge0 API error: 503 Service Unavailable", rfl⟩) (by omega)
  simpa using h

/-- C7 (amended): the invariant holds for the record written by the
post-evaluation update — `0 ≤ testCasesPassed ≤ totalTestCases` and
`totalTestCases` equals the number of the task's test cases (visible and
hidden) at evaluation time — but NOT for every record the orchestrator
persists: the pending row written at creation carries caller-supplied counts
(validated only to be nonnegative) that may violate both conjuncts until the
update overwrites them. -/
theorem c7_final_counts_amended (s : Store) (uid tid : String) (body : SubmitBody)
    (exec : TestCaseInput → Except String Judge0Result) (s' : Store)
    (res : List CaseResult) (p t : Nat)
    (h : submitTask s uid tid body exec = (s', RouteOutcome.okSubmit res p t)) :
    ∃ row, s'.submissions.get? s.submissions.length = some row ∧
      row.testCasesPassed = p ∧ row.totalTestCases = t ∧
      p ≤ t ∧ t = (getTestCasesByTask s tid).length := by
  obtain ⟨task, htask, hres, hp, ht, hs⟩ := submitTask_ok_inv s uid tid body exec s' res p t h
  have hple : p ≤ t := by
    rw [hp, ht]; exact evaluateSubmission_totalPassed_le s tid exec
  have htlen : t = (getTestCasesByTask s tid).length := by
    rw [ht]; exact evaluateSubmission_totalTests s tid exec
  by_cases hpt : p = t
  · rw [hs, if_pos hpt]
    refine ⟨{ id := s.submissions.length, userId := uid, taskId := tid,
              code := body.code, status := some "accepted",
              testCasesPassed := p, totalTestCases := t }, ?_, rfl, rfl, hple, htlen⟩
    rw [acceptedSideEffects_submissions]
    exact persistVerdict_submissions_get? s uid tid body "accepted" p t
  · rw [hs, if_neg hpt]
    exact ⟨{ id := s.submissions.length, userId := uid, taskId := tid,
             code := body.code, status := some "wrong_answer",
             testCasesPassed := p, totalTestCases := t },
      persistVerdict_submissions_get? s uid tid body "wrong_answer" p t, rfl, rfl,
      hple, htlen⟩

/-- C7 counterexample: a valid request body may carry
`testCasesPassed = 5, totalTestCases = 2`; the pending submission row the
orchestrator persists at creation (before evaluation) then has
`testCasesPassed > totalTestCases`, and its `totalTestCases` differs from the
task's test-case count (1), refuting the claim for that persisted record. -/
theorem c7_counterexample :
    validSubmissionBody userId0 taskId0 body7 = true ∧
    (createSubmission store1 userId0 taskId0 body7).1.submissions.map
        (fun r => (r.testCasesPassed, r.totalTestCases)) = [(5, 2)] ∧
    (getTestCasesByTask store1 taskId0).length = 1 ∧
    ¬ (5 : Nat) ≤ 2 :=
  ⟨by decide, rfl, rfl, by decide⟩

/-- C7 witness: the amended invariant instantiated on the one-test-case
fixture run (1 passed of 1). -/
theorem c7_witness :
    ∃ row, (submitTask store1 userId0 taskId0 body0 execMatch).1.submissions.get? 0 =
        some row ∧
      row.testCasesPassed = 1 ∧ row.totalTestCases = 1 ∧
      (1 : Nat) ≤ 1 ∧ (1 : Nat) = (getTestCasesByTask store1 taskId0).length := by
  have h := c7_final_counts_amended store1 userId0 taskId0 body0 execMatch
    (submitTask store1 userId0 taskId0 body0 execMatch).1
    [{ input := "1", expectedOutput := "2", actualOutput := "2", passed := true,
       status := "Accepted" }] 1 1 rfl
  simpa using h

/-- C8: a submission attempt with a well-formed body against a task that is
locked for the acting user fails with the forbidden-class 403 `Task is locked`
error and leaves the store untouched — in particular no submission row is
created and the user's XP is unchanged. -/
theorem c8_locked_submission (s : Store) (uid tid : String) (body : SubmitBody)
    (exec : TestCaseInput → Except String Judge0Result)
    (hvalid : validSubmissionBody uid tid body = true)
    (hlocked : isTaskUnlocked s uid tid = some false) :
    submitTask s uid tid body exec = (s, RouteOutcome.forbidden "Task is locked") ∧
    (submitTask s uid tid body exec).1.submissions = s.submissions ∧
    userXp (submitTask s uid tid body exec).1 uid = userXp s uid := by
  have hmain : submitTask s uid tid body exec =
      (s, RouteOutcome.forbidden "Task is locked") := by
    unfold submitTask
    rw [hlocked]
    simp [hvalid]
  exact ⟨hmain, by rw [hmain], by rw [hmain]⟩

/-- C8 witness: the second task of the two-task fixture module is locked (no
progress on the first), and the submit attempt leaves the store unchanged. -/
theorem c8_witness :
    submitTask storeLocked userId0 taskId1 body0 execMatch =
      (storeLocked, RouteOutcome.forbidden "Task is locked") ∧
    (submitTask storeLocked userId0 taskId1 body0 execMatch).1.submissions =
      storeLocked.submissions ∧
    userXp (submitTask storeLocked userId0 taskId1 body0 execMatch).1 userId0 =
      userXp storeLocked userId0 :=
  c8_locked_submission storeLocked userId0 taskId1 body0 execMatch (by decide) rfl

/-- C9 (amended): a submission attempt whose task id matches no task fails
with the forbidden-class 403 `Task is locked` error — not the not-found-class
error the claim states — because the unlock check runs first and reports a
missing task as locked; the task FETCH route, by contrast, does return the
not-found-class 404 `Task not found` for the same id. -/
theorem c9_missing_task_amended (s : Store) (uid tid : String) (body : SubmitBody)
    (exec : TestCaseInput → Except String Judge0Result)
    (hvalid : validSubmissionBody uid tid body = true)
    (hmissing : getTask s tid = none) :
    submitTask s uid tid body exec = (s, RouteOutcome.forbidden "Task is locked") ∧
    getTaskRoute s uid tid = RouteOutcome.notFound "Task not found" := by
  have hlocked : isTaskUnlocked s uid tid = some false := by
    unfold isTaskUnlocked
    rw [hmissing]
  constructor
  · unfold submitTask
    rw [hlocked]
    simp [hvalid]
  · unfold getTaskRoute
    rw [hmissing]

/-- C9 counterexample: at a well-formed id matching no task, the submit route
answers 403 `Task is locked`, not the 404 `Task not found` the claim
requires. -/
theorem c9_counterexample :
    getTask store0 missingId0 = none ∧
    (submitTask store0 userId0 missingId0 body0 execMatch).2 =
      RouteOutcome.forbidden "Task is locked" ∧
    ¬ (submitTask store0 userId0 missingId0 body0 execMatch).2 =
      RouteOutcome.notFound "Task not found" :=
  ⟨rfl, rfl, by decide⟩

/-- C9 witness: the amended missing-task theorem instantiated on the fixture
store and a fresh id. -/
theorem c9_witness :
    submitTask store0 userId0 missingId0 body0 execMatch =
      (store0, RouteOutcome.forbidden "Task is locked") ∧
    getTaskRoute store0 userId0 missingId0 =
      RouteOutcome.notFound "Task not found" :=
  c9_missing_task_amended store0 userId0 missingId0 body0 execMatch (by decide) rfl

/-- C4: the code double-credits achievement XP.  Starting from the state right
after a first grant (one unlock row, XP 100 already credited once for the
`Task 1` achievement), re-running the milestone evaluation leaves exactly one
unlock record but credits the 100 XP again (100 → 200): `unlockAchievement`
silently no-ops instead of signalling, so the XP credit that follows it runs
on every re-evaluation, contradicting the claimed (and intended) idempotent
exactly-once crediting. -/
theorem c4_double_credit_eval :
    (checkTaskCompletionAchievements storeAch userId0).userAchievements =
      storeAch.userAchievements ∧
    storeAch.userAchievements.length = 1 ∧
    userXp storeAch userId0 = 100 ∧
    userXp (checkTaskCompletionAchievements storeAch userId0) userId0 = 200 :=
  ⟨rfl, rfl, rfl, rfl⟩

/-- C10 (amended): re-issuing a certificate for an already-certified (user,
course) pair is NOT rejected: whenever the course is still complete for the
user and the freshly generated certificate number is unused,
`generateCertificate` succeeds again, appending one more certificate row for
the pair and crediting the course XP reward (`xpReward` or 500 when zero)
another time; only a collision of the generated number itself is refused by
the unique index. -/
theorem c10_reissue_amended (s : Store) (uid cid certNum : String)
    (course : CourseRow) (u : UserRow)
    (hcourse : getCourse s cid = some course)
    (huser : getUser s uid = some u)
    (hcomplete : (getModulesByCourse s cid).length ≤
      ((getUserCourseProgress s uid cid).filter
        (fun p => p.moduleId.isSome && p.isCompleted)).length)
    (hfresh : ∀ c ∈ s.certificates, ¬ c.certificateNumber = certNum) :
    ∃ s', generateCertificate s uid cid certNum = Except.ok (s', certNum) ∧
      s'.certificates.length = s.certificates.length + 1 ∧
      ({ userId := uid, courseId := cid, certificateNumber := certNum } : CertificateRow)
        ∈ s'.certificates ∧
      u.xp + jsOr course.xpReward 500 ≤ userXp s' uid := by
  have hany : s.certificates.any (fun c => c.certificateNumber == certNum) = false := by
    rw [List.any_eq_false]
    intro c hc
    simpa using hfresh c hc
  have hnlt : ¬ (((getUserCourseProgress s uid cid).filter
      (fun p => p.moduleId.isSome && p.isCompleted)).length <
      (getModulesByCourse s cid).length) := Nat.not_lt.mpr hcomplete
  unfold generateCertificate createCertificate
  rw [hcourse, huser]
  dsimp only
  rw [if_neg hnlt, hany]
  simp only [Bool.false_eq_true, if_false]
  refine ⟨_, rfl, ?_, ?_, ?_⟩
  · rw [checkCourseCompletionAchievements_certificates, updateUserXP_certificates]
    simp
  · rw [checkCourseCompletionAchievements_certificates, updateUserXP_certificates]
    exact List.mem_append_right _ (List.mem_singleton.mpr rfl)
  · have hx : userXp (updateUserXP
        { s with certificates := s.certificates ++
            [{ userId := uid, courseId := cid, certificateNumber := certNum }] }
        uid (jsOr course.xpReward 500)) uid = u.xp + jsOr course.xpReward 500 := by
      apply userXp_updateUserXP_eq
      exact huser
    calc u.xp + jsOr course.xpReward 500 = _ := hx.symm
      _ ≤ _ := userXp_checkCourseCompletionAchievements_le ..

/-- C10 counterexample: the fixture user already holds `CERT1` for the
completed course, yet a second `generateCertificate` call succeeds, leaving
two certificate rows and crediting the course's 300 XP a second time
(300 → 600) instead of rejecting the re-issue. -/
theorem c10_counterexample :
    storeCert.certificates.map (fun c => (c.userId, c.courseId, c.certificateNumber)) =
      [(userId0, courseId0, "CERT1")] ∧
    (generateCertificate storeCert userId0 courseId0 "CERT2").toOption.map
        (fun pr => (pr.1.certificates.length, userXp pr.1 userId0, pr.2)) =
      some (2, 600, "CERT2") :=
  ⟨rfl, rfl⟩

/-- C10 witness: the amended re-issue theorem instantiated on the
already-certified fixture. -/
theorem c10_witness :
    ∃ s', generateCertificate storeCert userId0 courseId0 "CERT2" =
        Except.ok (s', "CERT2") ∧
      s'.certificates.length = 2 ∧
      ({ userId := userId0, courseId := courseId0,
         certificateNumber := "CERT2" } : CertificateRow) ∈ s'.certificates ∧
      300 + jsOr 300 500 ≤ userXp s' userId0 := by
  have h := c10_reissue_amended storeCert userId0 courseId0 "CERT2"
    { id := courseId0, level := "beginner", xpReward := 300, isActive := true }
    { id := userId0, xp := 300 }
    rfl rfl (by decide) (by decide)
  simpa using h

end LMS
